import Mathlib

/-!
# Verification of the GMTokenAccount program

Shallow embedding of `src/GMTokenAccount/program/src/lib.rs`: a Solana
program with four instruction handlers (`create_token`,
`create_token_account`, `mint_tokens`, `transfer_tokens`) dispatched by
`process_instruction` on the first byte of the instruction data.

Modelling conventions:
* A public key (`Pubkey`) is an opaque identifier compared by equality;
  we model it as a `Nat` (serialized as 32 little-endian bytes).
* Account data buffers are lists of bytes (`List Nat`, each byte read
  modulo 256).
* `u64` arithmetic: values decoded from 8 bytes are below `2 ^ 64`.
  The program uses unchecked Rust `+=` on `u64`; in release builds this
  wraps modulo `2 ^ 64`, which is how we model it (a debug build would
  abort instead; either way no typed error is returned).
* Rust panics (`split_at` out of bounds, `try_into().unwrap()` on a
  slice of the wrong length) abort the program before any slot write;
  they are modelled as the distinguished outcome `ProgErr.panicked`,
  which is not a typed `ProgramError` return.
* Each handler returns the final list of account slots alongside the
  `Except` outcome; an early return leaves the slots exactly as given,
  which matches the Rust control flow where all `pack` write-backs are
  reached only after every guard has passed.
* The `spl_token` crate is an external dependency whose sources are not
  part of this repository; its record types and `Pack` codec are
  modelled from the spec (§3, §4.1, §6): fixed-size layouts with the
  fields this program reads and writes.
* The host's rent oracle is passed in as a function `rentMin : Nat → Nat`
  (the spec's `minimum_balance`); the rent sysvar slot itself is only
  consumed positionally, as in the source.
-/

/-- An account slot as the host hands it to the program: key, funding
balance (lamports), data buffer, and the host's signer-verification fact. -/
structure AccountInfo where
  key : Nat
  lamports : Nat
  data : List Nat
  isSigner : Bool
  deriving DecidableEq, Repr, Inhabited

/-- Outcomes of the program, mirroring the `ProgramError` variants the
source can return, plus `panicked` for Rust panics (which abort the
program rather than returning a typed error). -/
inductive ProgErr where
  | notEnoughAccountKeys
  | invalidInstructionData
  | accountDataTooSmall
  | insufficientFunds
  | incorrectAuthority
  | invalidAccountData
  | uninitializedAccount
  | panicked
  deriving DecidableEq, Repr

/-- `true` for the typed `ProgramError` returns of the source; `false`
for a Rust panic, which aborts instead of returning an error value. -/
def ProgErr.isTypedProgramError : ProgErr → Bool
  | .panicked => false
  | _ => true

/-- Modelled from the spec (§3): the `spl_token` Mint record restricted
to the fields the program touches (the crate is not in this repository's
sources). `COption<Pubkey>` becomes `Option Nat`. -/
structure Mint where
  mint_authority : Option Nat
  freeze_authority : Option Nat
  is_initialized : Bool
  deriving DecidableEq, Repr, Inhabited

/-- Modelled from the spec (§3): the `spl_token` token-account record
(`spl_token::state::Account`) restricted to the fields the program
touches: initialization flag, owner, and `u64` balance. -/
structure Account where
  is_initialized : Bool
  owner : Nat
  amount : Nat
  deriving DecidableEq, Repr, Inhabited

/-- `2 ^ 64`, the modulus of Rust `u64` arithmetic. -/
def u64Mod : Nat := 2 ^ 64

/-- Little-endian interpretation of a byte list (each entry read mod 256),
as in `u64::from_le_bytes`. -/
def leNat (bs : List Nat) : Nat :=
  bs.foldr (fun b acc => b % 256 + 256 * acc) 0

/-- The `w`-byte little-endian serialization of `n` (truncating at
`256 ^ w`). -/
def natLe : Nat → Nat → List Nat
  | 0, _ => []
  | w + 1, n => n % 256 :: natLe w (n / 256)

/-- Modelled from the spec (§6): encoded size of a Mint record,
`[is_initialized: 1][authority present: 1][authority: 32][freeze present: 1][freeze: 32]`. -/
def mintLEN : Nat := 67

/-- Modelled from the spec (§6): encoded size of a token-account record,
`[is_initialized: 1][owner: 32][amount: 8 LE]`. -/
def accountLEN : Nat := 41

/-- Modelled from the spec (§6): serialize an optional authority as a
one-byte presence flag followed by 32 key bytes. -/
def encodeOptKey : Option Nat → List Nat
  | none => 0 :: List.replicate 32 0
  | some k => 1 :: natLe 32 k

/-- Modelled from the spec (§4.1, §6): total encoding of a Mint record,
always exactly `mintLEN` bytes. -/
def encodeMint (m : Mint) : List Nat :=
  [if m.is_initialized then 1 else 0] ++ encodeOptKey m.mint_authority ++
    encodeOptKey m.freeze_authority

/-- Modelled from the spec (§4.1, §6): total encoding of a token-account
record, always exactly `accountLEN` bytes. -/
def encodeAccount (a : Account) : List Nat :=
  [if a.is_initialized then 1 else 0] ++ natLe 32 a.owner ++ natLe 8 a.amount

/-- Modelled from the spec (§4.1): `Mint::unpack_unchecked` — decode a
(possibly zero-valued) Mint, failing with `CorruptRecord` (surfaced as
`InvalidAccountData`) when the buffer is smaller than the fixed size. -/
def unpack_unchecked_mint (bytes : List Nat) : Except ProgErr Mint :=
  if bytes.length < mintLEN then .error .invalidAccountData
  else .ok
    { mint_authority :=
        if bytes.getD 1 0 % 256 ≠ 0 then some (leNat ((bytes.drop 2).take 32)) else none
      freeze_authority :=
        if bytes.getD 34 0 % 256 ≠ 0 then some (leNat ((bytes.drop 35).take 32)) else none
      is_initialized := bytes.getD 0 0 % 256 ≠ 0 }

/-- Modelled from the spec (§4.1): `Account::unpack_unchecked` for the
token-account record. -/
def unpack_unchecked_account (bytes : List Nat) : Except ProgErr Account :=
  if bytes.length < accountLEN then .error .invalidAccountData
  else .ok
    { is_initialized := bytes.getD 0 0 % 256 ≠ 0
      owner := leNat ((bytes.drop 1).take 32)
      amount := leNat ((bytes.drop 33).take 8) }

/-- `Mint::unpack`: unchecked decode followed by the initialization
check (`UninitializedAccount` on a not-yet-initialized record). -/
def unpack_mint (bytes : List Nat) : Except ProgErr Mint :=
  match unpack_unchecked_mint bytes with
  | .error e => .error e
  | .ok m => if m.is_initialized then .ok m else .error .uninitializedAccount

/-- `Account::unpack`: unchecked decode followed by the initialization
check. -/
def unpack_account (bytes : List Nat) : Except ProgErr Account :=
  match unpack_unchecked_account bytes with
  | .error e => .error e
  | .ok a => if a.is_initialized then .ok a else .error .uninitializedAccount

/-- `Mint::pack` into a slot buffer: the record's fixed-size encoding
overwrites the first `mintLEN` bytes, the remainder is untouched. -/
def pack_mint (m : Mint) (old : List Nat) : List Nat :=
  encodeMint m ++ old.drop mintLEN

/-- `Account::pack` into a slot buffer. -/
def pack_account (a : Account) (old : List Nat) : List Nat :=
  encodeAccount a ++ old.drop accountLEN

/-- The balance a slot's data decodes to (0 when the buffer does not
decode); used to state balance claims. -/
def acctAmount (a : AccountInfo) : Nat :=
  match unpack_unchecked_account a.data with
  | .ok t => t.amount
  | .error _ => 0

/-- Handler for opcode 0 (`create_token` in the source): `accounts` is
the iterator's remaining tail (mint account, mint authority, freeze
authority), `account` the invocation's first slot. Returns the outcome
and the final state of the tail slots. -/
def create_token (rentMin : Nat → Nat) (accounts : List AccountInfo)
    (_rest : List Nat) (account : AccountInfo) :
    Except ProgErr Unit × List AccountInfo :=
  match accounts with
  | [] => (.error .notEnoughAccountKeys, accounts)
  | mint_account :: it1 =>
    if account.data.length < mintLEN then
      (.error .accountDataTooSmall, accounts)
    else if account.lamports < rentMin mintLEN then
      (.error .insufficientFunds, accounts)
    else
      match it1 with
      | [] => (.error .notEnoughAccountKeys, accounts)
      | mint_authority :: it2 =>
        match it2 with
        | [] => (.error .notEnoughAccountKeys, accounts)
        | freeze_authority :: _ =>
          match unpack_unchecked_mint mint_account.data with
          | .error e => (.error e, accounts)
          | .ok mint_info =>
            let mint_info :=
              { mint_info with
                mint_authority := some mint_authority.key
                freeze_authority := some freeze_authority.key
                is_initialized := true }
            (.ok (),
              { mint_account with data := pack_mint mint_info mint_account.data } :: it1)

/-- Handler for opcode 1 (`create_token_account` in the source):
`accounts` is the tail (token account, owner), `account` the
invocation's first slot. -/
def create_token_account (rentMin : Nat → Nat) (accounts : List AccountInfo)
    (_rest : List Nat) (account : AccountInfo) :
    Except ProgErr Unit × List AccountInfo :=
  match accounts with
  | [] => (.error .notEnoughAccountKeys, accounts)
  | token_account :: it1 =>
    match it1 with
    | [] => (.error .notEnoughAccountKeys, accounts)
    | owner_account :: _ =>
      if account.data.length < accountLEN then
        (.error .accountDataTooSmall, accounts)
      else if account.lamports < rentMin accountLEN then
        (.error .insufficientFunds, accounts)
      else
        match unpack_unchecked_account token_account.data with
        | .error e => (.error e, accounts)
        | .ok token_info =>
          let token_info :=
            { token_info with owner := owner_account.key, is_initialized := true }
          (.ok (),
            { token_account with data := pack_account token_info token_account.data } :: it1)

/-- Handler for opcode 2 (`mint_tokens` in the source): `accounts` is
the tail (mint account, destination token account, mint authority).
`u64::from_le_bytes(rest.try_into().unwrap())` panics unless the
trailing payload is exactly 8 bytes. The `+=` on the balance wraps
modulo `2 ^ 64`. Only the token slot is packed back. -/
def mint_tokens (accounts : List AccountInfo) (rest : List Nat)
    (_account : AccountInfo) : Except ProgErr Unit × List AccountInfo :=
  match accounts with
  | [] => (.error .notEnoughAccountKeys, accounts)
  | mint_account :: it1 =>
    match it1 with
    | [] => (.error .notEnoughAccountKeys, accounts)
    | token_account :: it2 =>
      match it2 with
      | [] => (.error .notEnoughAccountKeys, accounts)
      | mint_authority :: _ =>
        if rest.length ≠ 8 then (.error .panicked, accounts)
        else
          let amount := leNat rest
          match unpack_mint mint_account.data with
          | .error e => (.error e, accounts)
          | .ok mint_info =>
            match unpack_account token_account.data with
            | .error e => (.error e, accounts)
            | .ok token_info =>
              if mint_info.mint_authority ≠ some mint_authority.key then
                (.error .incorrectAuthority, accounts)
              else
                let token_info :=
                  { token_info with amount := (token_info.amount + amount) % u64Mod }
                (.ok (),
                  mint_account ::
                    { token_account with data := pack_account token_info token_account.data } ::
                      it2)

/-- Handler for opcode 3 (`transfer_tokens` in the source): `accounts`
is the tail (source, destination, owner). Both records are mutated
locally and packed back only after every guard; the destination credit
is Rust `+=`, wrapping modulo `2 ^ 64`. -/
def transfer_tokens (accounts : List AccountInfo) (rest : List Nat)
    (_account : AccountInfo) : Except ProgErr Unit × List AccountInfo :=
  match accounts with
  | [] => (.error .notEnoughAccountKeys, accounts)
  | source_account :: it1 =>
    match it1 with
    | [] => (.error .notEnoughAccountKeys, accounts)
    | destination_account :: it2 =>
      match it2 with
      | [] => (.error .notEnoughAccountKeys, accounts)
      | owner_account :: _ =>
        if rest.length ≠ 8 then (.error .panicked, accounts)
        else
          let amount := leNat rest
          match unpack_account source_account.data with
          | .error e => (.error e, accounts)
          | .ok source_info =>
            match unpack_account destination_account.data with
            | .error e => (.error e, accounts)
            | .ok destination_info =>
              if source_info.owner ≠ owner_account.key then
                (.error .incorrectAuthority, accounts)
              else if source_info.amount < amount then
                (.error .insufficientFunds, accounts)
              else
                let source_info :=
                  { source_info with amount := source_info.amount - amount }
                let destination_info :=
                  { destination_info with
                    amount := (destination_info.amount + amount) % u64Mod }
                (.ok (),
                  { source_account with
                      data := pack_account source_info source_account.data } ::
                    { destination_account with
                        data := pack_account destination_info destination_account.data } ::
                      it2)

/-- The program entry point (`process_instruction` in the source): the
first slot is bound to `account`, the second is the rent sysvar
(abstracted into the `rentMin` oracle), and the first instruction byte
selects the handler. `split_at(1)` panics on empty instruction data.
Returns the outcome together with the final state of all slots. -/
def process_instruction (rentMin : Nat → Nat) (accounts : List AccountInfo)
    (instruction_data : List Nat) : Except ProgErr Unit × List AccountInfo :=
  match accounts with
  | [] => (.error .notEnoughAccountKeys, accounts)
  | account :: it1 =>
    match it1 with
    | [] => (.error .notEnoughAccountKeys, accounts)
    | rent_account :: tail =>
      match instruction_data with
      | [] => (.error .panicked, accounts)
      | op :: rest =>
        let res :=
          match op % 256 with
          | 0 => create_token rentMin tail rest account
          | 1 => create_token_account rentMin tail rest account
          | 2 => mint_tokens tail rest account
          | 3 => transfer_tokens tail rest account
          | _ => (.error .invalidInstructionData, tail)
        (res.1, account :: rent_account :: res.2)

/-! ## Concrete fixtures used by the closed theorems and witnesses -/

/-- A host rent oracle demanding 100 lamports for any size. -/
def rent100 : Nat → Nat := fun _ => 100

/-- An all-zero buffer of `n` bytes (a freshly allocated slot). -/
def zeroBytes (n : Nat) : List Nat := List.replicate n 0

/-- Bytes of an already-initialized Mint with authority 5 and freeze
authority 6. -/
def mintInitData : List Nat :=
  pack_mint { mint_authority := some 5, freeze_authority := some 6, is_initialized := true }
    (zeroBytes mintLEN)

/-- Bytes of an initialized token account with owner `o` and balance `a`. -/
def tokData (o a : Nat) : List Nat :=
  pack_account { is_initialized := true, owner := o, amount := a } (zeroBytes accountLEN)

/-- A large, well-funded first slot (the slot the source's rent checks read). -/
def acc0big : AccountInfo := { key := 1, lamports := 1000, data := zeroBytes mintLEN, isSigner := true }

/-- The rent sysvar slot (contents abstracted by the oracle). -/
def rentAcc : AccountInfo := { key := 2, lamports := 1, data := [], isSigner := false }

/-- A slot holding an already-initialized Mint. -/
def mintAccInit : AccountInfo := { key := 3, lamports := 1000, data := mintInitData, isSigner := false }

/-- An authority slot with key 9. -/
def authAcc : AccountInfo := { key := 9, lamports := 0, data := [], isSigner := true }

/-- A freeze-authority slot with key 10. -/
def freezeAcc : AccountInfo := { key := 10, lamports := 0, data := [], isSigner := false }

/-- An owner slot with key 9. -/
def ownerAcc9 : AccountInfo := { key := 9, lamports := 0, data := [], isSigner := true }

/-- An owner slot with key 7. -/
def ownerAcc7 : AccountInfo := { key := 7, lamports := 0, data := [], isSigner := true }

/-- A slot holding an already-initialized token account (owner 5, balance 3). -/
def tokAccInit : AccountInfo := { key := 4, lamports := 1000, data := tokData 5 3, isSigner := false }

/-- A correctly sized but completely unfunded mint slot. -/
def poorMint : AccountInfo := { key := 11, lamports := 0, data := zeroBytes mintLEN, isSigner := false }

/-- A correctly sized but completely unfunded token slot. -/
def poorTok : AccountInfo := { key := 12, lamports := 0, data := zeroBytes accountLEN, isSigner := false }

/-- A well-funded mint slot whose buffer is only 10 bytes. -/
def smallMint : AccountInfo := { key := 13, lamports := 1000, data := zeroBytes 10, isSigner := false }

/-- The authority slot matching `mintAccInit`'s stored authority 5. -/
def mintAuthAcc5 : AccountInfo := { key := 5, lamports := 0, data := [], isSigner := true }

/-- A token slot at the maximum `u64` balance. -/
def tokMax : AccountInfo := { key := 4, lamports := 0, data := tokData 7 (u64Mod - 1), isSigner := false }

/-- A source token slot with balance 1, owner 7. -/
def srcOne : AccountInfo := { key := 6, lamports := 0, data := tokData 7 1, isSigner := false }

/-- A source token slot with balance 5, owner 7. -/
def srcFive : AccountInfo := { key := 14, lamports := 0, data := tokData 7 5, isSigner := false }

/-- A destination token slot at the maximum `u64` balance. -/
def dstMax : AccountInfo := { key := 8, lamports := 0, data := tokData 9 (u64Mod - 1), isSigner := false }

/-- A destination token slot at the maximum `u64` balance (second copy,
with a different key, for the conservation counterexample). -/
def dstMax2 : AccountInfo := { key := 15, lamports := 0, data := tokData 9 (u64Mod - 1), isSigner := false }

/-- A destination token slot with a small balance (owner 9, balance 10). -/
def dstSmall : AccountInfo := { key := 16, lamports := 0, data := tokData 9 10, isSigner := false }

/-- The host-visible, signature-independent view of a slot: key, funding
balance, and data bytes — everything except the `isSigner` fact. -/
def hostView (a : AccountInfo) : Nat × Nat × List Nat := (a.key, a.lamports, a.data)

/-- Normalize a slot's signer-verification fact to `false`. -/
def clearSigner (a : AccountInfo) : AccountInfo := { a with isSigner := false }

/-! ## Helper lemmas -/

theorem natLe_length (w n : Nat) : (natLe w n).length = w := by
  induction w generalizing n with
  | zero => simp [natLe]
  | succ w ih => simp [natLe, ih]

theorem leNat_natLe (w n : Nat) : leNat (natLe w n) = n % 256 ^ w := by
  induction w generalizing n with
  | zero => simp [natLe, leNat, Nat.mod_one]
  | succ w ih =>
    have h256 : (256 : Nat) ^ (w + 1) = 256 * 256 ^ w := by
      rw [pow_succ, Nat.mul_comm]
    have hih := ih (n / 256)
    simp only [natLe, leNat, List.foldr_cons, h256] at hih ⊢
    rw [Nat.mod_mul, hih]
    omega

theorem leNat_lt (bs : List Nat) : leNat bs < 256 ^ bs.length := by
  induction bs with
  | nil => simp [leNat]
  | cons b t ih =>
    have hb : b % 256 < 256 := Nat.mod_lt _ (by norm_num)
    simp only [leNat, List.foldr_cons, List.length_cons, pow_succ]
    simp only [leNat] at ih
    omega

theorem pack_account_length (t : Account) (old : List Nat) :
    accountLEN ≤ (pack_account t old).length := by
  simp [pack_account, encodeAccount, natLe_length, accountLEN]
  omega

theorem unpack_unchecked_pack_account (t : Account) (old : List Nat) :
    unpack_unchecked_account (pack_account t old) =
      .ok { is_initialized := t.is_initialized
            owner := t.owner % 256 ^ 32
            amount := t.amount % 256 ^ 8 } := by
  have hsplit : pack_account t old =
      ([if t.is_initialized then (1 : Nat) else 0] ++ natLe 32 t.owner) ++
        (natLe 8 t.amount ++ old.drop accountLEN) := by
    simp [pack_account, encodeAccount]
  have hlen33 : ([if t.is_initialized then (1 : Nat) else 0] ++ natLe 32 t.owner).length = 33 := by
    simp [natLe_length]
  have hnotlt : ¬ (pack_account t old).length < accountLEN := by
    simpa using pack_account_length t old
  simp only [unpack_unchecked_account, hnotlt, if_false]
  congr 1
  have hdrop33 : (pack_account t old).drop 33 = natLe 8 t.amount ++ old.drop accountLEN := by
    rw [hsplit, ← hlen33, List.drop_left]
  have hdrop1 : (pack_account t old).drop 1 = natLe 32 t.owner ++ (natLe 8 t.amount ++ old.drop accountLEN) := by
    rw [hsplit]
    simp
  have hget0 : (pack_account t old).getD 0 0 = if t.is_initialized then 1 else 0 := by
    rw [hsplit]
    cases t.is_initialized <;> simp
  have htake8 : (natLe 8 t.amount ++ old.drop accountLEN).take 8 = natLe 8 t.amount := by
    rw [← natLe_length 8 t.amount]
    exact List.take_left _ _
  have htake32 : (natLe 32 t.owner ++ (natLe 8 t.amount ++ old.drop accountLEN)).take 32 = natLe 32 t.owner := by
    rw [← natLe_length 32 t.owner]
    exact List.take_left _ _
  rw [hdrop33, hdrop1, hget0, htake8, htake32, leNat_natLe, leNat_natLe]
  cases t.is_initialized <;> simp

/-! ## Claim theorems -/

/-- Claim C1 (code bug): a CreateMint (opcode 0) or CreateTokenAccount
(opcode 1) invocation whose target slot already holds an initialized
record does NOT fail with `AlreadyInitialized`: the code never consults
`is_initialized` (it decodes with `unpack_unchecked` and overwrites), so
the invocation succeeds and the slot's bytes change. Evaluated here on
an initialized Mint slot (authority 5 replaced by 9) and an initialized
token-account slot (owner 5 replaced by 9). -/
theorem c1_create_succeeds_on_initialized_slot :
    (unpack_unchecked_mint mintAccInit.data).map Mint.is_initialized = .ok true ∧
    (process_instruction rent100 [acc0big, rentAcc, mintAccInit, authAcc, freezeAcc] [0]).1 =
      .ok () ∧
    ((process_instruction rent100 [acc0big, rentAcc, mintAccInit, authAcc, freezeAcc] [0]).2.getD
        2 default).data ≠ mintAccInit.data ∧
    (unpack_unchecked_account tokAccInit.data).map Account.is_initialized = .ok true ∧
    (process_instruction rent100 [acc0big, rentAcc, tokAccInit, ownerAcc9] [1]).1 = .ok () ∧
    ((process_instruction rent100 [acc0big, rentAcc, tokAccInit, ownerAcc9] [1]).2.getD
        2 default).data ≠ tokAccInit.data :=
  ⟨rfl, rfl, by decide, rfl, rfl, by decide⟩

/-- Claim C5 (code bug): MintTo with `token.amount + amount` past the
`u64` maximum does not fail with a typed `Overflow` error: the unchecked
Rust `+=` wraps (release semantics; a debug build would abort), so
minting 1 to a balance of `2 ^ 64 - 1` succeeds and leaves balance 0. -/
theorem c5_mint_wraps_instead_of_overflow_error :
    acctAmount tokMax = u64Mod - 1 ∧
    (mint_tokens [mintAccInit, tokMax, mintAuthAcc5] (natLe 8 1) acc0big).1 = .ok () ∧
    acctAmount
        ((mint_tokens [mintAccInit, tokMax, mintAuthAcc5] (natLe 8 1) acc0big).2.getD 1 default) =
      0 :=
  ⟨rfl, rfl, rfl⟩

/-- Claim C6 (code bug): a Transfer whose destination credit overflows
`u64` does not fail: both writes are committed, the source debit (1 → 0)
together with a wrapped destination credit (`2 ^ 64 - 1` → 0). -/
theorem c6_transfer_commits_wrapped_credit :
    acctAmount srcOne = 1 ∧
    acctAmount dstMax = u64Mod - 1 ∧
    (transfer_tokens [srcOne, dstMax, ownerAcc7] (natLe 8 1) acc0big).1 = .ok () ∧
    acctAmount ((transfer_tokens [srcOne, dstMax, ownerAcc7] (natLe 8 1) acc0big).2.getD 0 default) =
      0 ∧
    acctAmount ((transfer_tokens [srcOne, dstMax, ownerAcc7] (natLe 8 1) acc0big).2.getD 1 default) =
      0 :=
  ⟨rfl, rfl, rfl, rfl, rfl⟩

/-- Claim C7 (code bug): the size and rent-funding checks of CreateMint
and CreateTokenAccount read the invocation's FIRST slot (`account`), not
the mint/token slot that receives the record: a zero-funded mint slot
(and token slot) passes and the creation succeeds, and an undersized
mint slot fails with `InvalidAccountData` from the codec rather than
`AccountDataTooSmall`. -/
theorem c7_funding_checks_read_wrong_slot :
    poorMint.lamports < rent100 mintLEN ∧
    (process_instruction rent100 [acc0big, rentAcc, poorMint, authAcc, freezeAcc] [0]).1 =
      .ok () ∧
    poorTok.lamports < rent100 accountLEN ∧
    (process_instruction rent100 [acc0big, rentAcc, poorTok, ownerAcc9] [1]).1 = .ok () ∧
    smallMint.data.length < mintLEN ∧
    (process_instruction rent100 [acc0big, rentAcc, smallMint, authAcc, freezeAcc] [0]).1 =
      .error .invalidAccountData :=
  ⟨by decide, rfl, by decide, rfl, by decide, rfl⟩

/-- Claim C3 (counterexample): one successful Transfer between two fixed
token accounts that does NOT conserve `source.amount + destination.amount`:
5 moves to a destination at `2 ^ 64 - 1`, the credit wraps, and the total
drops from `2 ^ 64 + 4` to 4. -/
theorem c3_counterexample_wrapping_transfer :
    (transfer_tokens [srcFive, dstMax2, ownerAcc7] (natLe 8 5) acc0big).1 = .ok () ∧
    acctAmount
          ((transfer_tokens [srcFive, dstMax2, ownerAcc7] (natLe 8 5) acc0big).2.getD 0 default) +
        acctAmount
          ((transfer_tokens [srcFive, dstMax2, ownerAcc7] (natLe 8 5) acc0big).2.getD 1 default) ≠
      acctAmount srcFive + acctAmount dstMax2 :=
  ⟨rfl, by decide⟩

/-- Claim C8 (counterexample): an opcode-2 invocation whose trailing
payload is empty (length 0 ≠ 8) does not fail with a typed
`MalformedPayload` program error — no such typed return exists in the
code; `rest.try_into().unwrap()` panics, aborting the program. -/
theorem c8_counterexample_panic_not_typed_error :
    process_instruction rent100 [acc0big, rentAcc, mintAccInit, tokAccInit, mintAuthAcc5] [2] =
      (.error .panicked, [acc0big, rentAcc, mintAccInit, tokAccInit, mintAuthAcc5]) ∧
    ProgErr.panicked.isTypedProgramError = false :=
  ⟨rfl, rfl⟩

/-- Claim C2: when the supplied mint-authority key differs from the
Mint's stored `mint_authority`, MintTo fails with `IncorrectAuthority`;
when the supplied owner key differs from the source token account's
stored owner, Transfer fails the same way; in both cases every slot is
returned byte-for-byte as it came in (no write). Hypotheses: the
8-byte payload decoded and both records unpacked, i.e. the guards that
the source checks earlier have passed. -/
theorem c2_incorrect_authority_rejected :
    (∀ (m t a acc0 : AccountInfo) (tl : List AccountInfo) (rest : List Nat) (mi : Mint)
      (ti : Account),
      rest.length = 8 →
      unpack_mint m.data = .ok mi →
      unpack_account t.data = .ok ti →
      mi.mint_authority ≠ some a.key →
      mint_tokens (m :: t :: a :: tl) rest acc0 =
        (.error .incorrectAuthority, m :: t :: a :: tl)) ∧
    (∀ (s d o acc0 : AccountInfo) (tl : List AccountInfo) (rest : List Nat) (si di : Account),
      rest.length = 8 →
      unpack_account s.data = .ok si →
      unpack_account d.data = .ok di →
      si.owner ≠ o.key →
      transfer_tokens (s :: d :: o :: tl) rest acc0 =
        (.error .incorrectAuthority, s :: d :: o :: tl)) := by
  constructor
  · intro m t a acc0 tl rest mi ti h8 hm ht hne
    simp [mint_tokens, h8, hm, ht, hne]
  · intro s d o acc0 tl rest si di h8 hs hd hne
    simp [transfer_tokens, h8, hs, hd, hne]

/-- Witness for C2: the stored mint authority 5 differs from supplied key
9, so the concrete MintTo fails with `IncorrectAuthority` and the slots
are unchanged; likewise a concrete Transfer signed with key 9 against
stored owner 7. -/
theorem c2_incorrect_authority_rejected_witness :
    mint_tokens [mintAccInit, tokAccInit, authAcc] (natLe 8 1) acc0big =
      (.error .incorrectAuthority, [mintAccInit, tokAccInit, authAcc]) ∧
    transfer_tokens [srcOne, dstMax, ownerAcc9] (natLe 8 1) acc0big =
      (.error .incorrectAuthority, [srcOne, dstMax, ownerAcc9]) :=
  ⟨c2_incorrect_authority_rejected.1 mintAccInit tokAccInit authAcc acc0big [] (natLe 8 1)
      { mint_authority := some 5, freeze_authority := some 6, is_initialized := true }
      { is_initialized := true, owner := 5, amount := 3 }
      (by decide) rfl rfl (by decide),
    c2_incorrect_authority_rejected.2 srcOne dstMax ownerAcc9 acc0big [] (natLe 8 1)
      { is_initialized := true, owner := 7, amount := 1 }
      { is_initialized := true, owner := 9, amount := u64Mod - 1 }
      (by decide) rfl rfl (by decide)⟩

/-- Claim C4: a Transfer whose amount strictly exceeds the source's
balance fails with `InsufficientFunds`, and both the source slot and the
destination slot (indeed the whole slot list) are returned byte-for-byte
unchanged. Hypotheses: the payload decoded and the earlier guards of
the source (record decoding, owner check) passed. -/
theorem c4_no_overdraft :
    ∀ (s d o acc0 : AccountInfo) (tl : List AccountInfo) (rest : List Nat) (si di : Account),
      rest.length = 8 →
      unpack_account s.data = .ok si →
      unpack_account d.data = .ok di →
      si.owner = o.key →
      si.amount < leNat rest →
      transfer_tokens (s :: d :: o :: tl) rest acc0 =
        (.error .insufficientFunds, s :: d :: o :: tl) := by
  intro s d o acc0 tl rest si di h8 hs hd howner hlt
  simp [transfer_tokens, h8, hs, hd, howner, hlt]

/-- Witness for C4: transferring 2 out of a source holding 1 fails with
`InsufficientFunds` and leaves every slot unchanged. -/
theorem c4_no_overdraft_witness :
    transfer_tokens [srcOne, dstMax, ownerAcc7] (natLe 8 2) acc0big =
      (.error .insufficientFunds, [srcOne, dstMax, ownerAcc7]) :=
  c4_no_overdraft srcOne dstMax ownerAcc7 acc0big [] (natLe 8 2)
    { is_initialized := true, owner := 7, amount := 1 }
    { is_initialized := true, owner := 9, amount := u64Mod - 1 }
    (by decide) rfl rfl (by decide) (by decide)

/-- Claim C10: a successful MintTo writes back only the destination
token slot; the mint slot (and every other slot) is returned
byte-for-byte unchanged, so no supply field of the Mint encoding ever
reflects minted amounts. -/
theorem c10_mint_slot_unchanged :
    ∀ (m t a acc0 : AccountInfo) (tl : List AccountInfo) (rest : List Nat),
      (mint_tokens (m :: t :: a :: tl) rest acc0).1 = .ok () →
      ∃ t', mint_tokens (m :: t :: a :: tl) rest acc0 = (.ok (), m :: t' :: a :: tl) := by
  intro m t a acc0 tl rest h
  by_cases h8 : rest.length = 8
  · cases hm : unpack_mint m.data with
    | error e => simp [mint_tokens, h8, hm] at h
    | ok mi =>
      cases ht : unpack_account t.data with
      | error e => simp [mint_tokens, h8, hm, ht] at h
      | ok ti =>
        by_cases hne : mi.mint_authority = some a.key
        · refine ⟨⟨t.key, t.lamports,
              pack_account ⟨ti.is_initialized, ti.owner, (ti.amount + leNat rest) % u64Mod⟩ t.data,
              t.isSigner⟩, ?_⟩
          simp [mint_tokens, h8, hm, ht, hne]
        · simp [mint_tokens, h8, hm, ht, hne] at h
  · simp [mint_tokens, h8] at h

/-- Witness for C10: a successful concrete MintTo (authority key 5
matches) leaves the initialized mint slot exactly as it was. -/
theorem c10_mint_slot_unchanged_witness :
    ∃ t', mint_tokens [mintAccInit, tokAccInit, mintAuthAcc5] (natLe 8 2) acc0big =
      (.ok (), mintAccInit :: t' :: mintAuthAcc5 :: []) :=
  c10_mint_slot_unchanged mintAccInit tokAccInit mintAuthAcc5 acc0big [] (natLe 8 2) rfl

theorem unpack_account_ok_unchecked (bytes : List Nat) (a : Account)
    (h : unpack_account bytes = .ok a) : unpack_unchecked_account bytes = .ok a := by
  unfold unpack_account at h
  cases h' : unpack_unchecked_account bytes with
  | error e => simp [h'] at h
  | ok a' =>
    simp [h'] at h
    by_cases hi : a'.is_initialized
    · simp [hi] at h
      simp [h]
    · simp [hi] at h

theorem unpack_unchecked_account_amount_lt (bytes : List Nat) (a : Account)
    (h : unpack_unchecked_account bytes = .ok a) : a.amount < u64Mod := by
  unfold unpack_unchecked_account at h
  by_cases hl : bytes.length < accountLEN
  · simp [hl] at h
  · simp only [hl, if_false] at h
    have := leNat_lt ((bytes.drop 33).take 8)
    have hlen : ((bytes.drop 33).take 8).length ≤ 8 := by
      simp [List.length_take]
    have hle : (256 : Nat) ^ ((bytes.drop 33).take 8).length ≤ 256 ^ 8 :=
      Nat.pow_le_pow_right (by norm_num) hlen
    have hM : (256 : Nat) ^ 8 = u64Mod := by norm_num [u64Mod]
    cases h
    simp only []
    omega

/-- Claim C3 amended: a successful Transfer conserves
`source.amount + destination.amount` modulo `2 ^ 64`, and conserves it
exactly whenever the destination credit does not overflow `u64` (the
unchecked `+=` wraps on overflow — see the counterexample); hence any
sequence of successful non-overflowing transfers between two fixed
accounts leaves the sum invariant. -/
theorem c3_transfer_conservation :
    ∀ (s d o acc0 : AccountInfo) (tl l2 : List AccountInfo) (rest : List Nat) (si di : Account),
      unpack_account s.data = .ok si →
      unpack_account d.data = .ok di →
      transfer_tokens (s :: d :: o :: tl) rest acc0 = (.ok (), l2) →
      ∃ s' d', l2 = s' :: d' :: o :: tl ∧
        (acctAmount s' + acctAmount d') % u64Mod = (acctAmount s + acctAmount d) % u64Mod ∧
        (di.amount + leNat rest < u64Mod →
          acctAmount s' + acctAmount d' = acctAmount s + acctAmount d) := by
  intro s d o acc0 tl l2 rest si di hs hd htr
  by_cases h8 : rest.length = 8
  · by_cases howner : si.owner = o.key
    · by_cases hfunds : si.amount < leNat rest
      · simp [transfer_tokens, h8, hs, hd, howner, hfunds] at htr
      · simp [transfer_tokens, h8, hs, hd, howner, hfunds] at htr
        subst htr
        have hs' := unpack_account_ok_unchecked _ _ hs
        have hd' := unpack_account_ok_unchecked _ _ hd
        have hsa := unpack_unchecked_account_amount_lt _ _ hs'
        have hda := unpack_unchecked_account_amount_lt _ _ hd'
        have hA : leNat rest < u64Mod := by
          have hlt := leNat_lt rest
          rw [h8] at hlt
          norm_num [u64Mod] at hlt ⊢
          omega
        refine ⟨_, _, rfl, ?_, ?_⟩
        all_goals
          simp [acctAmount, unpack_unchecked_pack_account, hs', hd']
          norm_num [u64Mod] at hsa hda hA ⊢
          omega
    · simp [transfer_tokens, h8, hs, hd, howner] at htr
  · simp [transfer_tokens, h8] at htr

/-- Witness for C3: a concrete successful transfer of 2 from a balance-5
source to a balance-10 destination; the sum 15 is conserved exactly. -/
theorem c3_transfer_conservation_witness :
    ∃ s' d',
      (transfer_tokens [srcFive, dstSmall, ownerAcc7] (natLe 8 2) acc0big).2 =
        s' :: d' :: ownerAcc7 :: [] ∧
      (acctAmount s' + acctAmount d') % u64Mod =
        (acctAmount srcFive + acctAmount dstSmall) % u64Mod ∧
      ((10 : Nat) + leNat (natLe 8 2) < u64Mod →
        acctAmount s' + acctAmount d' = acctAmount srcFive + acctAmount dstSmall) :=
  c3_transfer_conservation srcFive dstSmall ownerAcc7 acc0big []
    (transfer_tokens [srcFive, dstSmall, ownerAcc7] (natLe 8 2) acc0big).2 (natLe 8 2)
    { is_initialized := true, owner := 7, amount := 5 }
    { is_initialized := true, owner := 9, amount := 10 }
    rfl rfl rfl

/-- Claim C8 amended: for opcodes 2 and 3, a trailing payload of length
other than 8 makes the program PANIC (`try_into().unwrap()`), an abort
modelled as `ProgErr.panicked` — not a typed `MalformedPayload` program
error, which does not exist in the code; no slot is written. When the
length is exactly 8 the amount acted on is the little-endian 64-bit
reading of the payload (`leNat rest`), as a successful MintTo's
destination-balance update shows. -/
theorem c8_payload_length_behavior :
    (∀ (r : Nat → Nat) (a0 ra x y z : AccountInfo) (tl : List AccountInfo) (rest : List Nat),
      rest.length ≠ 8 →
      process_instruction r (a0 :: ra :: x :: y :: z :: tl) (2 :: rest) =
        (.error .panicked, a0 :: ra :: x :: y :: z :: tl) ∧
      process_instruction r (a0 :: ra :: x :: y :: z :: tl) (3 :: rest) =
        (.error .panicked, a0 :: ra :: x :: y :: z :: tl)) ∧
    (∀ (m t a acc0 : AccountInfo) (tl : List AccountInfo) (rest : List Nat) (mi : Mint)
      (ti : Account),
      rest.length = 8 →
      unpack_mint m.data = .ok mi →
      unpack_account t.data = .ok ti →
      mi.mint_authority = some a.key →
      ∃ t', mint_tokens (m :: t :: a :: tl) rest acc0 = (.ok (), m :: t' :: a :: tl) ∧
        acctAmount t' = (ti.amount + leNat rest) % u64Mod) := by
  constructor
  · intro r a0 ra x y z tl rest hne
    constructor <;> simp [process_instruction, mint_tokens, transfer_tokens, hne]
  · intro m t a acc0 tl rest mi ti h8 hm ht hauth
    refine ⟨⟨t.key, t.lamports,
        pack_account ⟨ti.is_initialized, ti.owner, (ti.amount + leNat rest) % u64Mod⟩ t.data,
        t.isSigner⟩, ?_, ?_⟩
    · simp [mint_tokens, h8, hm, ht, hauth]
    · simp [acctAmount, unpack_unchecked_pack_account]
      norm_num [u64Mod]
      omega

/-- Witness for C8: a 3-byte payload on opcode 2 panics leaving the
slots alone, and a successful MintTo with payload `natLe 8 2` (the
little-endian encoding of 2) credits exactly 2. -/
theorem c8_payload_length_behavior_witness :
    process_instruction rent100 [acc0big, rentAcc, mintAccInit, tokAccInit, mintAuthAcc5]
        [2, 1, 1, 1] =
      (.error .panicked, [acc0big, rentAcc, mintAccInit, tokAccInit, mintAuthAcc5]) ∧
    ∃ t', mint_tokens [mintAccInit, tokAccInit, mintAuthAcc5] (natLe 8 2) acc0big =
        (.ok (), mintAccInit :: t' :: mintAuthAcc5 :: []) ∧
      acctAmount t' = ((3 : Nat) + leNat (natLe 8 2)) % u64Mod :=
  ⟨(c8_payload_length_behavior.1 rent100 acc0big rentAcc mintAccInit tokAccInit mintAuthAcc5
      [] [1, 1, 1] (by decide)).1,
    c8_payload_length_behavior.2 mintAccInit tokAccInit mintAuthAcc5 acc0big [] (natLe 8 2)
      { mint_authority := some 5, freeze_authority := some 6, is_initialized := true }
      { is_initialized := true, owner := 5, amount := 3 }
      (by decide) rfl rfl rfl⟩

@[simp] theorem clearSigner_key (a : AccountInfo) : (clearSigner a).key = a.key := rfl

@[simp] theorem clearSigner_lamports (a : AccountInfo) : (clearSigner a).lamports = a.lamports := rfl

@[simp] theorem clearSigner_data (a : AccountInfo) : (clearSigner a).data = a.data := rfl

theorem create_token_clearSigner (r : Nat → Nat) (l : List AccountInfo) (rest : List Nat)
    (a0 : AccountInfo) :
    create_token r (l.map clearSigner) rest (clearSigner a0) =
      ((create_token r l rest a0).1, (create_token r l rest a0).2.map clearSigner) := by
  cases l with
  | nil => simp [create_token]
  | cons m it1 =>
    by_cases h1 : a0.data.length < mintLEN
    · simp [create_token, h1]
    · by_cases h2 : a0.lamports < r mintLEN
      · simp [create_token, h1, h2]
      · cases it1 with
        | nil => simp [create_token, h1, h2]
        | cons ma it2 =>
          cases it2 with
          | nil => simp [create_token, h1, h2]
          | cons fa it3 =>
            cases hu : unpack_unchecked_mint m.data with
            | error e => simp [create_token, h1, h2, hu]
            | ok mi => simp [create_token, h1, h2, hu, clearSigner]

theorem create_token_account_clearSigner (r : Nat → Nat) (l : List AccountInfo)
    (rest : List Nat) (a0 : AccountInfo) :
    create_token_account r (l.map clearSigner) rest (clearSigner a0) =
      ((create_token_account r l rest a0).1,
        (create_token_account r l rest a0).2.map clearSigner) := by
  cases l with
  | nil => simp [create_token_account]
  | cons t it1 =>
    cases it1 with
    | nil => simp [create_token_account]
    | cons ow it2 =>
      by_cases h1 : a0.data.length < accountLEN
      · simp [create_token_account, h1]
      · by_cases h2 : a0.lamports < r accountLEN
        · simp [create_token_account, h1, h2]
        · cases hu : unpack_unchecked_account t.data with
          | error e => simp [create_token_account, h1, h2, hu]
          | ok ti => simp [create_token_account, h1, h2, hu, clearSigner]

theorem mint_tokens_clearSigner (l : List AccountInfo) (rest : List Nat) (a0 : AccountInfo) :
    mint_tokens (l.map clearSigner) rest (clearSigner a0) =
      ((mint_tokens l rest a0).1, (mint_tokens l rest a0).2.map clearSigner) := by
  cases l with
  | nil => simp [mint_tokens]
  | cons m it1 =>
    cases it1 with
    | nil => simp [mint_tokens]
    | cons t it2 =>
      cases it2 with
      | nil => simp [mint_tokens]
      | cons a it3 =>
        by_cases h8 : rest.length = 8
        · cases hm : unpack_mint m.data with
          | error e => simp [mint_tokens, h8, hm]
          | ok mi =>
            cases ht : unpack_account t.data with
            | error e => simp [mint_tokens, h8, hm, ht]
            | ok ti =>
              by_cases hne : mi.mint_authority = some a.key
              · simp [mint_tokens, h8, hm, ht, hne, clearSigner]
              · simp [mint_tokens, h8, hm, ht, hne]
        · simp [mint_tokens, h8]

theorem transfer_tokens_clearSigner (l : List AccountInfo) (rest : List Nat)
    (a0 : AccountInfo) :
    transfer_tokens (l.map clearSigner) rest (clearSigner a0) =
      ((transfer_tokens l rest a0).1, (transfer_tokens l rest a0).2.map clearSigner) := by
  cases l with
  | nil => simp [transfer_tokens]
  | cons s it1 =>
    cases it1 with
    | nil => simp [transfer_tokens]
    | cons d it2 =>
      cases it2 with
      | nil => simp [transfer_tokens]
      | cons o it3 =>
        by_cases h8 : rest.length = 8
        · cases hs : unpack_account s.data with
          | error e => simp [transfer_tokens, h8, hs]
          | ok si =>
            cases hd : unpack_account d.data with
            | error e => simp [transfer_tokens, h8, hs, hd]
            | ok di =>
              by_cases howner : si.owner = o.key
              · by_cases hfunds : si.amount < leNat rest
                · simp [transfer_tokens, h8, hs, hd, howner, hfunds]
                · simp [transfer_tokens, h8, hs, hd, howner, hfunds, clearSigner]
              · simp [transfer_tokens, h8, hs, hd, howner]
        · simp [transfer_tokens, h8]

theorem process_instruction_clearSigner (r : Nat → Nat) (accounts : List AccountInfo)
    (instr : List Nat) :
    process_instruction r (accounts.map clearSigner) instr =
      ((process_instruction r accounts instr).1,
        (process_instruction r accounts instr).2.map clearSigner) := by
  cases accounts with
  | nil => simp [process_instruction]
  | cons a0 it1 =>
    cases it1 with
    | nil => simp [process_instruction]
    | cons ra tail =>
      cases instr with
      | nil => simp [process_instruction, clearSigner]
      | cons op rest =>
        simp only [List.map_cons, process_instruction]
        generalize op % 256 = k
        rcases k with _ | _ | _ | _ | k
        · simpa using Prod.mk.injEq _ _ _ _ ▸ create_token_clearSigner r tail rest a0
        · simpa using Prod.mk.injEq _ _ _ _ ▸ create_token_account_clearSigner r tail rest a0
        · simpa using Prod.mk.injEq _ _ _ _ ▸ mint_tokens_clearSigner tail rest a0
        · simpa using Prod.mk.injEq _ _ _ _ ▸ transfer_tokens_clearSigner tail rest a0
        · simp

theorem hostView_eq_clearSigner (a b : AccountInfo) (h : hostView a = hostView b) :
    clearSigner a = clearSigner b := by
  cases a
  cases b
  simp only [hostView, Prod.mk.injEq] at h
  simp [clearSigner, h.1, h.2.1, h.2.2]

theorem map_clearSigner_of_hostView (l l' : List AccountInfo)
    (h : l.map hostView = l'.map hostView) : l.map clearSigner = l'.map clearSigner := by
  induction l generalizing l' with
  | nil =>
    cases l' with
    | nil => rfl
    | cons b t => simp at h
  | cons a t ih =>
    cases l' with
    | nil => simp at h
    | cons b t' =>
      simp only [List.map_cons, List.cons.injEq] at h ⊢
      exact ⟨hostView_eq_clearSigner _ _ h.1, ih _ h.2⟩

theorem map_hostView_map_clearSigner (l : List AccountInfo) :
    (l.map clearSigner).map hostView = l.map hostView := by
  induction l with
  | nil => rfl
  | cons a t ih => simp only [List.map_cons, ih]; rfl

/-- Claim C9: the program's outcome and every slot's final key, balance
and bytes are independent of the host's signer-verification facts — two
invocations whose slots agree on `hostView` (everything but `isSigner`)
give the same result and the same final `hostView`s. The authority
checks compare stored keys with supplied account keys only and never
consult `isSigner`. -/
theorem c9_signer_independence :
    ∀ (rentMin : Nat → Nat) (accounts accounts' : List AccountInfo) (instr : List Nat),
      accounts.map hostView = accounts'.map hostView →
      (process_instruction rentMin accounts instr).1 =
        (process_instruction rentMin accounts' instr).1 ∧
      (process_instruction rentMin accounts instr).2.map hostView =
        (process_instruction rentMin accounts' instr).2.map hostView := by
  intro r l l' instr h
  have hcs := map_clearSigner_of_hostView l l' h
  have e1 := process_instruction_clearSigner r l instr
  have e2 := process_instruction_clearSigner r l' instr
  rw [hcs, e2] at e1
  have h1 := congrArg Prod.fst e1
  have h2 := congrArg Prod.snd e1
  simp only [] at h1 h2
  refine ⟨h1.symm, ?_⟩
  have h3 := congrArg (List.map hostView) h2
  rw [map_hostView_map_clearSigner, map_hostView_map_clearSigner] at h3
  exact h3.symm

/-- Witness for C9: a MintTo invocation whose authority slot is a
cryptographic signer and the same invocation where no slot is a signer
produce the same outcome and the same final slot contents. -/
theorem c9_signer_independence_witness :
    (process_instruction rent100
        [acc0big, rentAcc, mintAccInit, tokAccInit, mintAuthAcc5] (2 :: natLe 8 2)).1 =
      (process_instruction rent100
        [acc0big, rentAcc, mintAccInit, tokAccInit, clearSigner mintAuthAcc5]
        (2 :: natLe 8 2)).1 ∧
    (process_instruction rent100
        [acc0big, rentAcc, mintAccInit, tokAccInit, mintAuthAcc5] (2 :: natLe 8 2)).2.map
        hostView =
      (process_instruction rent100
        [acc0big, rentAcc, mintAccInit, tokAccInit, clearSigner mintAuthAcc5]
        (2 :: natLe 8 2)).2.map hostView :=
  c9_signer_independence rent100 [acc0big, rentAcc, mintAccInit, tokAccInit, mintAuthAcc5]
    [acc0big, rentAcc, mintAccInit, tokAccInit, clearSigner mintAuthAcc5] (2 :: natLe 8 2) rfl
